import Mathlib

/-!
# mqttgoclient: the `mqtt` wrapper package

A shallow embedding of `src/mqtt/client.go` (package `mqtt`) and of the client
configuration built in `src/main/main.go`.

The wrapper delegates every protocol operation to the paho MQTT library, which
is a dependency and not part of the repository.  The library is therefore kept
abstract:

* the options object built by `Init` is the sequence of setter calls applied to
  the fresh `MQTT.NewClientOptions()` value (`ClientOptions`); what the library
  stores for an `AddBroker` call is `MQTT.AddBroker`, with the verdict of
  `url.Parse` left as a parameter;
* the connection object (`MQTT.Client`) is a record of the answers its methods
  give (`MQTTClient`), and `MQTT.NewClient` is a parameter of `Init`;
* a token is the pair of what `Wait()` returned and what `Error()` returns.

Effects (log lines, the random draw, calls into the library, the call of the
user handler) are recorded in an explicit trace of `Event`s, in program order.
A Go `error` is `Option String`: `none` is `nil`, `some msg` an error with
message `msg`.  A call through a nil interface or a nil function value panics,
which is the exit `Exit.panicked`.
-/

namespace fmt

/-- An operand of `fmt.Sprintf`: the repository only passes an `int`
(`rand.Int()`) and a `string` (`client.ClientId`). -/
inductive Arg where
  | int (n : Nat)
  | str (s : String)
  deriving DecidableEq, Repr

/-- Go's `reflect.TypeOf(arg).String()`. -/
def Arg.typeName : Arg → String
  | .int _ => "int"
  | .str _ => "string"

/-- The operand printed with the verb `%v`: decimal for a (non-negative) `int`,
the text itself for a `string`. -/
def Arg.value : Arg → String
  | .int n => Nat.repr n
  | .str s => s

/-- One operand under the verb `verb`.  `%v` fits both types, `%d` an `int`,
`%s` a `string`; a verb that does not fit the operand gives Go's
`%!verb(type=value)`.  Only the verbs `v`, `d` and `s` are modelled, without
flags, width or precision: the two format strings of the repository,
`"mqttgoclient_id"` and `"Generated RandomID: '%s'"`, use nothing else. -/
def formatArg (verb : Char) (a : Arg) : String :=
  match a with
  | .int n =>
    if verb = 'v' ∨ verb = 'd' then Nat.repr n
    else "%!" ++ String.singleton verb ++ "(int=" ++ Nat.repr n ++ ")"
  | .str s =>
    if verb = 'v' ∨ verb = 's' then s
    else "%!" ++ String.singleton verb ++ "(string=" ++ s ++ ")"

/-- The diagnostic `fmt` appends when operands are left over after the format
string is consumed: `%!(EXTRA type=value, type=value)`. -/
def extraArgs : List Arg → String
  | [] => ""
  | a :: as =>
    "%!(EXTRA " ++
      ", ".intercalate ((a :: as).map fun x => x.typeName ++ "=" ++ x.value) ++ ")"

/-- The loop of `fmt`'s `doPrintf` over the characters of the format string:
plain characters are copied, `%%` is a percent sign, `%verb` consumes the next
operand (`%!verb(MISSING)` when none is left), a lone `%` at the end is
`%!(NOVERB)`, and operands left over at the end are reported by `extraArgs`. -/
def doPrintf : List Char → List Arg → String
  | [], args => extraArgs args
  | c :: rest, args =>
    if c = '%' then
      match rest, args with
      | [], args => "%!(NOVERB)" ++ extraArgs args
      | v :: rest', [] =>
        if v = '%' then "%" ++ doPrintf rest' []
        else "%!" ++ String.singleton v ++ "(MISSING)" ++ doPrintf rest' []
      | v :: rest', a :: args' =>
        if v = '%' then "%" ++ doPrintf rest' (a :: args')
        else formatArg v a ++ doPrintf rest' args'
    else String.singleton c ++ doPrintf rest args

/-- `fmt.Sprintf(format, args...)`. -/
def Sprintf (format : String) (args : List Arg) : String :=
  doPrintf format.data args

/-- Value of a decimal digit character. -/
def digitValue (c : Char) : Nat := c.toNat - 48

/-- Reads a decimal numeral, most significant digit first, continuing from
`acc`. -/
def readDecimal (acc : Nat) (ds : List Char) : Nat :=
  ds.foldl (fun a c => a * 10 + digitValue c) acc

end fmt

namespace strings

/-- Go's `strings.HasPrefix`, on the characters of both strings. -/
def hasPrefixChars : List Char → List Char → Bool
  | _, [] => true
  | [], _ :: _ => false
  | c :: s, p :: ps => c == p && hasPrefixChars s ps

/-- Whether `substr` occurs somewhere in `s`, on the characters of both. -/
def containsChars : List Char → List Char → Bool
  | [], substr => hasPrefixChars [] substr
  | c :: s, substr => hasPrefixChars (c :: s) substr || containsChars s substr

/-- Go's `strings.Contains(s, substr)`. -/
def Contains (s substr : String) : Bool :=
  containsChars s.data substr.data

end strings

namespace mqtt

/-- A Go `error` value: `none` is `nil`. -/
abbrev GoError := Option String

/-- Address of a `Client` value (`*Client`). -/
abbrev Ptr := Nat

/-- `type Receiver func(*Client, string, []byte)`: a user function value,
identified by its name. -/
structure Receiver where
  name : String
  deriving DecidableEq, Repr

/-- A completed call on a library token: what `Wait()` returned and what
`Error()` returns. -/
structure Token where
  wait : Bool
  error : GoError
  deriving DecidableEq, Repr

/-- A setter call on the library's `*ClientOptions`. -/
inductive OptCall where
  | AddBroker (server : String)
  | SetClientID (id : String)
  | SetUsername (u : String)
  | SetPassword (p : String)
  | SetCleanSession (clean : Bool)
  deriving DecidableEq, Repr

/-- The options object: the setter calls applied, in order, to the value of
`MQTT.NewClientOptions()`. -/
abbrev ClientOptions := List OptCall

/-- User names put on the options, in order. -/
def ClientOptions.usernames (o : ClientOptions) : List String :=
  o.filterMap fun | .SetUsername s => some s | _ => none

/-- Passwords put on the options, in order. -/
def ClientOptions.passwords (o : ClientOptions) : List String :=
  o.filterMap fun | .SetPassword s => some s | _ => none

/-- The `payload interface{}` of `Publish`: a string or a byte slice. -/
inductive Payload where
  | text (s : String)
  | bytes (b : List Nat)
  deriving DecidableEq, Repr

/-- An inbound `MQTT.Message`: what `Topic()` and `Payload()` return. -/
structure Message where
  topic : String
  payload : List Nat
  deriving DecidableEq, Repr

/-- The `MQTT.MessageHandler` handed to the library's `Subscribe`: the only one
the wrapper ever passes is the method value `client.messageReceiver`, bound to
the address of the client. -/
inductive MessageHandler where
  | messageReceiver (client : Ptr)
  deriving DecidableEq, Repr

/-- The library's connection object (`MQTT.Client`): the answer each of its
methods gives when called. -/
structure MQTTClient where
  Connect : Token
  Publish : String → Nat → Bool → Payload → Token
  Subscribe : String → Nat → MessageHandler → Token
  IsConnectionOpen : Bool
  IsConnected : Bool

/-- Observable effects, in program order. -/
inductive Event where
  | log (line : String)
  | randInt (n : Nat)
  | NewClientOptions
  | NewClient (opts : ClientOptions)
  | Connect
  | Disconnect (quiesce : Nat)
  | Publish (topic : String) (qos : Nat) (retained : Bool) (payload : Payload)
  | Subscribe (topic : String) (qos : Nat) (callback : MessageHandler)
  | Unsubscribe (topic : String)
  | Wait
  | IsConnectionOpen
  | IsConnected
  | MessageArrived (handler : Receiver) (client : Ptr) (topic : String) (payload : List Nat)
  deriving DecidableEq, Repr

/-- A call into the paho library (anything that builds options, creates the
client or talks to the broker). -/
def Event.isLibraryCall : Event → Bool
  | .log _ => false
  | .randInt _ => false
  | .MessageArrived _ _ _ _ => false
  | _ => true

/-- The `struct Client` of `client.go`. -/
structure Client where
  Broker : String
  User : String
  Password : String
  ClientId : String
  CleanSession : Bool
  Qos : Int
  DisconnectInterval : Nat
  connObj : Option MQTTClient
  MessageArrived : Option Receiver

/-- How a call ended: it returned a value, or it panicked on a nil value. -/
inductive Exit (α : Type) where
  | returned (value : α)
  | panicked
  deriving DecidableEq, Repr

/-- A finished call: its exit and the effects it had. -/
structure Run (α : Type) where
  exit : Exit α
  trace : List Event

/-- A finished `Init`: the returned `err`, the client as `Init` left it and the
effects it had. -/
structure InitResult where
  err : GoError
  client : Client
  trace : List Event

/-- `func (client *Client) messageReceiver(mqttClient MQTT.Client, message MQTT.Message)`.
`self` is the address held by the receiver `client`. -/
def messageReceiver (self : Ptr) (client : Client) (_mqttClient : MQTTClient)
    (message : Message) : Run Unit :=
  match client.MessageArrived with
  | none => { exit := .panicked, trace := [] }
  | some handler =>
    { exit := .returned (),
      trace := [.MessageArrived handler self message.topic message.payload] }

/-- The library calling a registered handler on an inbound message; `mem` is the
memory at that moment (the `Client` stored at each address). -/
def MessageHandler.call (cb : MessageHandler) (mem : Ptr → Client)
    (mqttClient : MQTTClient) (message : Message) : Run Unit :=
  match cb with
  | .messageReceiver p => mqtt.messageReceiver p (mem p) mqttClient message

/-- `func (client *Client) Init() (err error)`.  `NewClient` is the library's
`MQTT.NewClient`, `randInt` the value `rand.Int()` returns if it is called. -/
def Init (NewClient : ClientOptions → MQTTClient) (randInt : Nat) (client : Client) :
    InitResult :=
  let t0 : List Event := [.log "MQTT Client Init Started"]
  if client.Broker = "" then
    { err := some "Empty Broker URL", client := client, trace := t0 }
  else
    let step : Client × List Event :=
      if client.ClientId = "" then
        let id := fmt.Sprintf "mqttgoclient_id" [.int randInt]
        ({ client with ClientId := id },
          [.log "Empty Client ID, Generating Random One", .randInt randInt,
           .log (fmt.Sprintf "Generated RandomID: '%s'" [.str id])])
      else (client, [])
    let client := step.1
    let opts : ClientOptions := [.AddBroker client.Broker, .SetClientID client.ClientId]
    let opts : ClientOptions :=
      if client.User ≠ "" ∧ client.Password ≠ "" then
        opts ++ [.SetUsername client.User, .SetPassword client.Password]
      else opts
    let opts : ClientOptions := opts ++ [.SetCleanSession client.CleanSession]
    { err := none,
      client := { client with connObj := some (NewClient opts) },
      trace := t0 ++ step.2 ++
        [.NewClientOptions, .NewClient opts,
         .log "MQTT Client Init Finished, Ready to Connect."] }

/-- `func (client *Client) Connect() (err error)`.  The guard
`token.Wait() && token.Error() != nil` is the first case of the match;
`log.Println` puts a blank between its two operands. -/
def Connect (client : Client) : Run GoError :=
  let t0 : List Event := [.log "Connecting..."]
  match client.connObj with
  | none => { exit := .panicked, trace := t0 }
  | some connObj =>
    let token := connObj.Connect
    match token.wait, token.error with
    | true, some e =>
      { exit := .returned (some e),
        trace := t0 ++ [.Connect, .Wait, .log ("Connect Error:  " ++ e)] }
    | _, _ =>
      { exit := .returned none,
        trace := t0 ++ [.Connect, .Wait, .log "MQTT Client Connected"] }

/-- `func (client *Client) Disconnect()`. -/
def Disconnect (client : Client) : Run Unit :=
  match client.connObj with
  | none => { exit := .panicked, trace := [] }
  | some _ => { exit := .returned (), trace := [.Disconnect client.DisconnectInterval] }

/-- `func (client *Client) Publish(topic string, qos byte, retain bool, payload interface{}) (err error)`.
The named result `err` is never assigned. -/
def Publish (client : Client) (topic : String) (qos : Nat) (retain : Bool)
    (payload : Payload) : Run GoError :=
  match client.connObj with
  | none => { exit := .panicked, trace := [] }
  | some connObj =>
    let _token := connObj.Publish topic qos retain payload
    { exit := .returned none, trace := [.Publish topic qos retain payload, .Wait] }

/-- `func (client *Client) Subscribe(topic string, qos byte) (err error)`.
`self` is the address held by the receiver `client`. -/
def Subscribe (self : Ptr) (client : Client) (topic : String) (qos : Nat) : Run GoError :=
  if topic = "" then
    { exit := .returned (some "Empty Subscribe Topic"), trace := [] }
  else
    match client.connObj with
    | none => { exit := .panicked, trace := [] }
    | some connObj =>
      let token := connObj.Subscribe topic qos (.messageReceiver self)
      match token.wait, token.error with
      | true, some e =>
        { exit := .returned (some e),
          trace := [.Subscribe topic qos (.messageReceiver self), .Wait] }
      | _, _ =>
        { exit := .returned none,
          trace := [.Subscribe topic qos (.messageReceiver self), .Wait,
                    .log "Subscribed Successfully"] }

/-- `func (client *Client) Unsubscribe(topic string)`. -/
def Unsubscribe (client : Client) (topic : String) : Run Unit :=
  match client.connObj with
  | none => { exit := .panicked, trace := [] }
  | some _ => { exit := .returned (), trace := [.Unsubscribe topic] }

/-- `func (client *Client) Connected() bool`. -/
def Connected (client : Client) : Run Bool :=
  match client.connObj with
  | none => { exit := .panicked, trace := [] }
  | some connObj => { exit := .returned connObj.IsConnectionOpen, trace := [.IsConnectionOpen] }

/-- `func (client *Client) Alive() bool`. -/
def Alive (client : Client) : Run Bool :=
  match client.connObj with
  | none => { exit := .panicked, trace := [] }
  | some connObj => { exit := .returned connObj.IsConnected, trace := [.IsConnected] }

end mqtt

namespace MQTT

/-- The address the paho library hands to `url.Parse` for `AddBroker(server)`:
a server that starts with a colon gets `127.0.0.1` in front, and one without
`://` gets `tcp://` in front. -/
def brokerURI (server : String) : String :=
  let server := if server.data.head? = some ':' then "127.0.0.1" ++ server else server
  if strings.Contains server "://" then server else "tcp://" ++ server

/-- The paho library's `(*ClientOptions).AddBroker(server)` on the `Servers`
field: the address of `brokerURI` is parsed and appended, and an address that
does not parse is dropped.  `urlParse` says whether `url.Parse` accepts an
address; a stored URL is represented by the text it was parsed from. -/
def AddBroker (urlParse : String → Bool) (server : String) (Servers : List String) :
    List String :=
  if urlParse (brokerURI server) then Servers ++ [brokerURI server] else Servers

/-- The `Servers` field of the options after the setter calls `o`, starting
from the empty list of `NewClientOptions()`. -/
def Servers (urlParse : String → Bool) (o : mqtt.ClientOptions) : List String :=
  o.foldl (fun acc c => match c with
    | .AddBroker server => AddBroker urlParse server acc
    | _ => acc) []

end MQTT

namespace main

/-- `func MessageArrived(client *mqtt.Client, topic string, message []byte)` of
`main.go`, as a function value. -/
def MessageArrived : mqtt.Receiver := { name := "main.MessageArrived" }

/-- `var client mqtt.Client` of `main.go` after its four assignments, before
`Init`: every other field has Go's zero value. -/
def client : mqtt.Client :=
  { Broker := "tcp://test.mosquitto.org:1883",
    User := "",
    Password := "",
    ClientId := "goclienttest",
    CleanSession := true,
    Qos := 0,
    DisconnectInterval := 0,
    connObj := none,
    MessageArrived := some MessageArrived }

end main

namespace sample

/-- A library client whose broker acknowledges every request: every token
completes without error. -/
def acknowledging : mqtt.MQTTClient :=
  { Connect := { wait := true, error := none },
    Publish := fun _ _ _ _ => { wait := true, error := none },
    Subscribe := fun _ _ _ => { wait := true, error := none },
    IsConnectionOpen := true,
    IsConnected := true }

/-- A library client that cannot reach its broker: the connect token completes
with a network error, every later token with the library's "Not Connected". -/
def unreachable : mqtt.MQTTClient :=
  { Connect := { wait := true, error := some "Network Error : dial tcp: i/o timeout" },
    Publish := fun _ _ _ _ => { wait := true, error := some "Not Connected" },
    Subscribe := fun _ _ _ => { wait := true, error := some "Not Connected" },
    IsConnectionOpen := false,
    IsConnected := false }

/-- `MQTT.NewClient` in a run where the broker answers. -/
def NewClient (_opts : mqtt.ClientOptions) : mqtt.MQTTClient := acknowledging

/-- `MQTT.NewClient` in a run where the broker is unreachable. -/
def NewClientOffline (_opts : mqtt.ClientOptions) : mqtt.MQTTClient := unreachable

/-- A client configuration without a broker URL. -/
def noBroker : mqtt.Client := { main.client with Broker := "", ClientId := "" }

/-- The configuration of `main.go` without a client id. -/
def noClientId : mqtt.Client := { main.client with ClientId := "" }

/-- The configuration of `main.go` with credentials. -/
def withCredentials : mqtt.Client := { main.client with User := "alice", Password := "secret" }

/-- The configuration of `main.go` with a user name and no password. -/
def userOnly : mqtt.Client := { main.client with User := "alice" }

/-- The configuration of `main.go` with a password and no user name. -/
def passwordOnly : mqtt.Client := { main.client with Password := "secret" }

/-- The client of `main.go` after `Init`, with a broker that answers. -/
def online : mqtt.Client := (mqtt.Init NewClient 0 main.client).client

/-- The client of `main.go` after `Init`, with an unreachable broker. -/
def offline : mqtt.Client := (mqtt.Init NewClientOffline 0 main.client).client

end sample

/-! ## Decimal rendering and the generated client id -/

namespace fmt

theorem digitValue_digitChar (k : Nat) (hk : k < 10) : digitValue (Nat.digitChar k) = k := by
  interval_cases k <;> rfl

theorem readDecimal_toDigitsCore (fuel : Nat) :
    ∀ (n : Nat) (ds : List Char), n < fuel →
      readDecimal 0 (Nat.toDigitsCore 10 fuel n ds) = readDecimal n ds := by
  induction fuel with
  | zero => intro n ds h; omega
  | succ fuel ih =>
    intro n ds h
    unfold Nat.toDigitsCore
    have hd : digitValue (Nat.digitChar (n % 10)) = n % 10 :=
      digitValue_digitChar _ (Nat.mod_lt _ (by decide))
    by_cases h0 : n / 10 = 0
    · simp only [h0, if_true]
      have hn : n % 10 = n := by omega
      simp only [readDecimal, List.foldl, Nat.zero_mul, Nat.zero_add]
      rw [hd, hn]
    · simp only [h0, if_false]
      rw [ih (n / 10) _ (by omega)]
      simp only [readDecimal, List.foldl, hd]
      congr 1
      omega

/-- Two naturals with the same decimal rendering are equal. -/
theorem repr_injective {m n : Nat} (h : Nat.repr m = Nat.repr n) : m = n := by
  have hl : Nat.toDigits 10 m = Nat.toDigits 10 n := by
    have := congrArg String.data h
    simpa [Nat.repr, List.asString] using this
  have hm := readDecimal_toDigitsCore (m + 1) m [] (by omega)
  have hn := readDecimal_toDigitsCore (n + 1) n [] (by omega)
  unfold Nat.toDigits at hl
  rw [hl] at hm
  rw [hm] at hn
  simpa [readDecimal] using hn

/-- The format string of `Init` has no verb, so the operand is reported as left
over. -/
theorem Sprintf_clientId (r : Nat) :
    Sprintf "mqttgoclient_id" [.int r]
      = "mqttgoclient_id%!(EXTRA int=" ++ Nat.repr r ++ ")" := by
  apply String.ext
  simp [Sprintf, doPrintf, extraArgs, Arg.typeName, Arg.value, String.intercalate,
    String.intercalate.go, String.singleton]

theorem generatedId_ne_empty (r : Nat) : Sprintf "mqttgoclient_id" [.int r] ≠ "" := by
  rw [Sprintf_clientId]
  intro h
  have hlen := congrArg String.length h
  simp only [String.length_append] at hlen
  have h1 : (")" : String).length = 1 := by decide
  have h0 : ("" : String).length = 0 := by decide
  omega

theorem generatedId_injective {r r' : Nat}
    (h : Sprintf "mqttgoclient_id" [.int r] = Sprintf "mqttgoclient_id" [.int r']) :
    r = r' := by
  rw [Sprintf_clientId, Sprintf_clientId] at h
  apply repr_injective
  have := congrArg String.data h
  simp only [String.data_append] at this
  apply String.ext
  simpa using this

end fmt

namespace mqtt

/-! ## Init -/

/-- C1: `Init` returns a non-nil error exactly when `Broker` is the empty
string, and in that case it returns right after its first log line: the trace
holds that line only, so no options are built, no client is created and no
call into the library is made. -/
theorem Init_error_iff_empty_broker (NewClient : ClientOptions → MQTTClient) (randInt : Nat)
    (client : Client) :
    ((Init NewClient randInt client).err ≠ none ↔ client.Broker = "") ∧
    (client.Broker = "" →
      (Init NewClient randInt client).trace = [Event.log "MQTT Client Init Started"] ∧
      (Init NewClient randInt client).trace.filter Event.isLibraryCall = []) := by
  by_cases hb : client.Broker = ""
  · simp [Init, hb, Event.isLibraryCall]
  · simp [Init, hb]

/-- Instance of C1 on a configuration without broker URL, and on the
configuration of `main.go`. -/
theorem Init_error_iff_empty_broker_witness :
    (Init sample.NewClient 7 sample.noBroker).err ≠ none ∧
    (Init sample.NewClient 7 sample.noBroker).trace = [Event.log "MQTT Client Init Started"] ∧
    (Init sample.NewClient 7 main.client).err = none :=
  ⟨(Init_error_iff_empty_broker sample.NewClient 7 sample.noBroker).1.2 rfl,
   ((Init_error_iff_empty_broker sample.NewClient 7 sample.noBroker).2 rfl).1,
   by
    have h := (Init_error_iff_empty_broker sample.NewClient 7 main.client).1
    by_contra hne
    exact absurd (h.1 hne) (by decide)⟩

/-- C10: with an empty `Broker`, `Init` returns its error and leaves the client
exactly as it was: an empty `ClientId` stays empty, no random integer is drawn
and no connection object is created. -/
theorem Init_empty_broker_leaves_client (NewClient : ClientOptions → MQTTClient)
    (randInt : Nat) (client : Client) (hb : client.Broker = "") :
    (Init NewClient randInt client).err = some "Empty Broker URL" ∧
    (Init NewClient randInt client).client = client ∧
    (client.ClientId = "" → (Init NewClient randInt client).client.ClientId = "") ∧
    (∀ n, Event.randInt n ∉ (Init NewClient randInt client).trace) ∧
    (∀ opts, Event.NewClient opts ∉ (Init NewClient randInt client).trace) := by
  simp [Init, hb]

/-- Instance of C10 on a configuration with neither broker URL nor client id. -/
theorem Init_empty_broker_leaves_client_witness :
    sample.noBroker.Broker = "" ∧
    (Init sample.NewClient 7 sample.noBroker).err = some "Empty Broker URL" ∧
    (Init sample.NewClient 7 sample.noBroker).client = sample.noBroker ∧
    (Init sample.NewClient 7 sample.noBroker).client.ClientId = "" :=
  ⟨rfl,
   (Init_empty_broker_leaves_client sample.NewClient 7 sample.noBroker rfl).1,
   (Init_empty_broker_leaves_client sample.NewClient 7 sample.noBroker rfl).2.1,
   (Init_empty_broker_leaves_client sample.NewClient 7 sample.noBroker rfl).2.2.1 rfl⟩

/-- C4: with a broker and no client id, `Init` draws a random integer and
replaces `ClientId` by `Sprintf("mqttgoclient_id", n)`, which is not empty and
determines the integer drawn: two calls that draw different integers end with
different client ids. -/
theorem Init_generates_distinct_ClientId (NewClient NewClient' : ClientOptions → MQTTClient)
    (randInt randInt' : Nat) (client client' : Client)
    (hb : client.Broker ≠ "") (hid : client.ClientId = "")
    (hb' : client'.Broker ≠ "") (hid' : client'.ClientId = "") :
    (Init NewClient randInt client).client.ClientId ≠ "" ∧
    (Init NewClient randInt client).client.ClientId
      = "mqttgoclient_id%!(EXTRA int=" ++ Nat.repr randInt ++ ")" ∧
    Event.randInt randInt ∈ (Init NewClient randInt client).trace ∧
    (randInt ≠ randInt' →
      (Init NewClient randInt client).client.ClientId
        ≠ (Init NewClient' randInt' client').client.ClientId) := by
  have e : (Init NewClient randInt client).client.ClientId
      = fmt.Sprintf "mqttgoclient_id" [.int randInt] := by
    simp [Init, hb, hid]
  have e' : (Init NewClient' randInt' client').client.ClientId
      = fmt.Sprintf "mqttgoclient_id" [.int randInt'] := by
    simp [Init, hb', hid']
  refine ⟨?_, ?_, ?_, ?_⟩
  · rw [e]; exact fmt.generatedId_ne_empty randInt
  · rw [e]; exact fmt.Sprintf_clientId randInt
  · simp [Init, hb, hid]
  · intro hne heq
    rw [e, e'] at heq
    exact hne (fmt.generatedId_injective heq)

/-- Instance of C4: the configuration of `main.go` without client id, with the
draws 1 and 2. -/
theorem Init_generates_distinct_ClientId_witness :
    (Init sample.NewClient 1 sample.noClientId).client.ClientId ≠ "" ∧
    (Init sample.NewClient 1 sample.noClientId).client.ClientId
      = "mqttgoclient_id%!(EXTRA int=1)" ∧
    (Init sample.NewClient 1 sample.noClientId).client.ClientId
      ≠ (Init sample.NewClient 2 sample.noClientId).client.ClientId :=
  have h := Init_generates_distinct_ClientId sample.NewClient sample.NewClient 1 2
    sample.noClientId sample.noClientId (by decide) rfl (by decide) rfl
  ⟨h.1, h.2.1, h.2.2.2 (by decide)⟩

/-- C5: with a broker, `Init` puts the user name and the password on the
options when both `User` and `Password` are non-empty, and puts neither of them
when one is empty. -/
theorem Init_credentials_are_a_pair (NewClient : ClientOptions → MQTTClient) (randInt : Nat)
    (client : Client) (hb : client.Broker ≠ "") :
    ∃ opts : ClientOptions,
      (Init NewClient randInt client).trace.filter Event.isLibraryCall
        = [Event.NewClientOptions, Event.NewClient opts] ∧
      (Init NewClient randInt client).client.connObj = some (NewClient opts) ∧
      (client.User ≠ "" ∧ client.Password ≠ "" →
        opts.usernames = [client.User] ∧ opts.passwords = [client.Password]) ∧
      (client.User = "" ∨ client.Password = "" →
        opts.usernames = [] ∧ opts.passwords = []) := by
  by_cases hid : client.ClientId = "" <;>
  by_cases hu : client.User = "" <;>
  by_cases hp : client.Password = "" <;>
  simp [Init, hb, hid, hu, hp, Event.isLibraryCall, ClientOptions.usernames,
    ClientOptions.passwords]

/-- Instance of C5 on four configurations: both credentials (both are put on
the options), a user name only, a password only, and the configuration of
`main.go` with neither (nothing is put on the options). -/
theorem Init_credentials_are_a_pair_witness :
    (sample.withCredentials.Broker ≠ "" ∧
      ∃ opts : ClientOptions,
        (Init sample.NewClient 0 sample.withCredentials).trace.filter Event.isLibraryCall
          = [Event.NewClientOptions, Event.NewClient opts] ∧
        opts.usernames = ["alice"] ∧ opts.passwords = ["secret"]) ∧
    (sample.userOnly.Broker ≠ "" ∧
      ∃ opts : ClientOptions,
        (Init sample.NewClient 0 sample.userOnly).trace.filter Event.isLibraryCall
          = [Event.NewClientOptions, Event.NewClient opts] ∧
        opts.usernames = [] ∧ opts.passwords = []) ∧
    (sample.passwordOnly.Broker ≠ "" ∧
      ∃ opts : ClientOptions,
        (Init sample.NewClient 0 sample.passwordOnly).trace.filter Event.isLibraryCall
          = [Event.NewClientOptions, Event.NewClient opts] ∧
        opts.usernames = [] ∧ opts.passwords = []) ∧
    (main.client.Broker ≠ "" ∧
      ∃ opts : ClientOptions,
        (Init sample.NewClient 0 main.client).trace.filter Event.isLibraryCall
          = [Event.NewClientOptions, Event.NewClient opts] ∧
        opts.usernames = [] ∧ opts.passwords = []) := by
  refine ⟨⟨by decide, ?_⟩, ⟨by decide, ?_⟩, ⟨by decide, ?_⟩, ⟨by decide, ?_⟩⟩
  · obtain ⟨opts, htrace, _, hboth, _⟩ :=
      Init_credentials_are_a_pair sample.NewClient 0 sample.withCredentials (by decide)
    exact ⟨opts, htrace, hboth ⟨by decide, by decide⟩⟩
  · obtain ⟨opts, htrace, _, _, hnot⟩ :=
      Init_credentials_are_a_pair sample.NewClient 0 sample.userOnly (by decide)
    exact ⟨opts, htrace, hnot (Or.inr rfl)⟩
  · obtain ⟨opts, htrace, _, _, hnot⟩ :=
      Init_credentials_are_a_pair sample.NewClient 0 sample.passwordOnly (by decide)
    exact ⟨opts, htrace, hnot (Or.inl rfl)⟩
  · obtain ⟨opts, htrace, _, _, hnot⟩ :=
      Init_credentials_are_a_pair sample.NewClient 0 main.client (by decide)
    exact ⟨opts, htrace, hnot (Or.inl rfl)⟩

/-- C6: on a client holding a connection object, `Connect` calls the library's
`Connect` once and waits for its token; when the token completed, `Connect`
returns exactly the token's error: nil when the broker acknowledged, the error
otherwise. -/
theorem Connect_returns_token_error (client : Client) (connObj : MQTTClient)
    (hinit : client.connObj = some connObj) (hdone : connObj.Connect.wait = true) :
    (Connect client).exit = Exit.returned connObj.Connect.error ∧
    ((Connect client).exit ≠ Exit.returned none ↔ connObj.Connect.error ≠ none) ∧
    (Connect client).trace.filter Event.isLibraryCall = [Event.Connect, Event.Wait] := by
  cases herr : connObj.Connect.error <;>
  simp [Connect, hinit, hdone, herr, Event.isLibraryCall]

/-- Instance of C6: the client of `main.go` after `Init`, once with a broker
that acknowledges and once with a broker that cannot be reached. -/
theorem Connect_returns_token_error_witness :
    (Connect sample.online).exit = Exit.returned none ∧
    (Connect sample.offline).exit
      = Exit.returned (some "Network Error : dial tcp: i/o timeout") ∧
    (Connect sample.offline).trace.filter Event.isLibraryCall = [Event.Connect, Event.Wait] :=
  ⟨(Connect_returns_token_error sample.online sample.acknowledging rfl rfl).1,
   (Connect_returns_token_error sample.offline sample.unreachable rfl rfl).1,
   (Connect_returns_token_error sample.offline sample.unreachable rfl rfl).2.2⟩

/-- C2: with an empty topic `Subscribe` returns an error at once and makes no
call at all; with a non-empty topic, on a client holding a connection object,
it calls the library's `Subscribe` once, with that topic and qos, waits, and
when the token completed returns exactly the token's error. -/
theorem Subscribe_validates_then_delegates (self : Ptr) (client : Client) (qos : Nat) :
    ((Subscribe self client "" qos).exit = Exit.returned (some "Empty Subscribe Topic") ∧
      (Subscribe self client "" qos).trace = []) ∧
    ∀ (topic : String) (connObj : MQTTClient), topic ≠ "" → client.connObj = some connObj →
      (connObj.Subscribe topic qos (.messageReceiver self)).wait = true →
      (Subscribe self client topic qos).exit
        = Exit.returned (connObj.Subscribe topic qos (.messageReceiver self)).error ∧
      ((Subscribe self client topic qos).exit ≠ Exit.returned none ↔
        (connObj.Subscribe topic qos (.messageReceiver self)).error ≠ none) ∧
      (Subscribe self client topic qos).trace.filter Event.isLibraryCall
        = [Event.Subscribe topic qos (.messageReceiver self), Event.Wait] := by
  refine ⟨by simp [Subscribe], ?_⟩
  intro topic connObj ht hinit hdone
  cases herr : (connObj.Subscribe topic qos (.messageReceiver self)).error <;>
  simp [Subscribe, ht, hinit, hdone, herr, Event.isLibraryCall]

/-- Instance of C2: the subscription of `main.go`, with a broker that
acknowledges and with one that cannot be reached, and an empty topic. -/
theorem Subscribe_validates_then_delegates_witness :
    (Subscribe 1 sample.online "" 0).exit = Exit.returned (some "Empty Subscribe Topic") ∧
    (Subscribe 1 sample.online "goclient_sub" 0).exit = Exit.returned none ∧
    (Subscribe 1 sample.offline "goclient_sub" 0).exit = Exit.returned (some "Not Connected") ∧
    (Subscribe 1 sample.offline "goclient_sub" 0).trace.filter Event.isLibraryCall
      = [Event.Subscribe "goclient_sub" 0 (.messageReceiver 1), Event.Wait] :=
  ⟨(Subscribe_validates_then_delegates 1 sample.online 0).1.1,
   ((Subscribe_validates_then_delegates 1 sample.online 0).2 "goclient_sub"
      sample.acknowledging (by decide) rfl rfl).1,
   ((Subscribe_validates_then_delegates 1 sample.offline 0).2 "goclient_sub"
      sample.unreachable (by decide) rfl rfl).1,
   ((Subscribe_validates_then_delegates 1 sample.offline 0).2 "goclient_sub"
      sample.unreachable (by decide) rfl rfl).2.2⟩

/-- C3 fails on the code: `Publish` of `main.go` on a client whose broker is
unreachable gets a publish token that completed with the error "Not Connected",
and returns nil all the same. -/
theorem Publish_drops_token_error :
    sample.offline.connObj = some sample.unreachable ∧
    (sample.unreachable.Publish "goclient_pub" 0 false (.text "Hello"))
      = { wait := true, error := some "Not Connected" } ∧
    (Publish sample.offline "goclient_pub" 0 false (.text "Hello")).exit
      = Exit.returned none :=
  ⟨rfl, rfl, rfl⟩

/-- C8 fails on the code: `Publish` with an empty topic on an initialised client
returns nil and hands the empty topic to the library's `Publish`. -/
theorem Publish_forwards_empty_topic :
    (Publish sample.online "" 0 false (.text "Hello")).exit = Exit.returned none ∧
    (Publish sample.online "" 0 false (.text "Hello")).trace
      = [Event.Publish "" 0 false (.text "Hello"), Event.Wait] :=
  ⟨rfl, rfl⟩

/-- C7: `Subscribe` registers `client.messageReceiver` as the handler of the
subscription, and when the library calls that handler on an inbound message
while the client's `MessageArrived` is set, `MessageArrived` is called exactly
once, with the address of that same client, the message's topic and the
message's payload, both as they are. -/
theorem messageReceiver_calls_handler_once (self : Ptr) (client : Client)
    (mqttClient : MQTTClient) (message : Message) (handler : Receiver)
    (hset : client.MessageArrived = some handler) :
    messageReceiver self client mqttClient message
      = { exit := Exit.returned (),
          trace := [Event.MessageArrived handler self message.topic message.payload] } ∧
    (∀ mem : Ptr → Client, mem self = client →
      (MessageHandler.messageReceiver self).call mem mqttClient message
        = { exit := Exit.returned (),
            trace := [Event.MessageArrived handler self message.topic message.payload] }) ∧
    (∀ (sub : Client) (connObj : MQTTClient) (topic : String) (qos : Nat),
      topic ≠ "" → sub.connObj = some connObj →
      (Subscribe self sub topic qos).trace.head?
        = some (Event.Subscribe topic qos (.messageReceiver self))) := by
  refine ⟨by simp [messageReceiver, hset], ?_, ?_⟩
  · intro mem hmem
    simp [MessageHandler.call, messageReceiver, hmem, hset]
  · intro sub connObj topic qos ht hinit
    cases hw : (connObj.Subscribe topic qos (.messageReceiver self)).wait <;>
    cases herr : (connObj.Subscribe topic qos (.messageReceiver self)).error <;>
    simp [Subscribe, ht, hinit, hw, herr]

/-- Instance of C7: the client of `main.go`, stored at address 1, receives
"hi" on "a/b". -/
theorem messageReceiver_calls_handler_once_witness :
    sample.online.MessageArrived = some main.MessageArrived ∧
    messageReceiver 1 sample.online sample.acknowledging { topic := "a/b", payload := [104, 105] }
      = { exit := Exit.returned (),
          trace := [Event.MessageArrived main.MessageArrived 1 "a/b" [104, 105]] } :=
  ⟨rfl,
   (messageReceiver_calls_handler_once 1 sample.online sample.acknowledging
      { topic := "a/b", payload := [104, 105] } main.MessageArrived rfl).1⟩

end mqtt
